import Mathlib

/-!
Verification of the book8-voice-agent core: a shallow embedding of the
per-call session store (src/state/callState.js), the turn counter and the
agent-chat dialogue cascade (index.js), the best-effort telemetry POST
(src/utils/bestEffortPost.js), and the Twilio/OpenAI audio bridge handlers
(index.js), together with theorems about their behaviour.

Conventions of the embedding:
  * JavaScript nullable values are represented by `Option`.
  * A JavaScript string argument that the code tests for truthiness
    (for example `if (!callSid) return`) is represented by a plain
    `String`, where the empty string stands for the falsy values
    (absent / empty); option-valued fields use explicit truthiness
    helpers mirroring the tests in the code.
  * Timestamps (`Date.now()`, Twilio media timestamps) are `Int`,
    threaded explicitly instead of read from a clock.
  * The in-process `Map` objects are total functions from keys to
    `Option` entries; mutation returns the updated map.
  * External effects (NLU extraction, the availability and booking HTTP
    calls, `fetch` in the telemetry helper) are supplied as oracle
    values describing the observable outcome of the call.
-/

/-- JavaScript nullish coalescing `a ?? b` on nullable values. -/
def jsNullish {α : Type} (a b : Option α) : Option α :=
  match a with
  | some v => some v
  | none => b

/-- Truthiness of a nullable JavaScript string: `null`, `undefined` and
the empty string are falsy. -/
def jsTruthyStr : Option String → Bool
  | none => false
  | some s => s ≠ ""

/-- Truthiness of a nullable JavaScript number: `null`, `undefined` and
`0` are falsy. -/
def jsTruthyInt : Option Int → Bool
  | none => false
  | some n => n ≠ 0

/-- JavaScript `a || b` on nullable strings: keeps `a` when truthy. -/
def jsOrStr (a b : Option String) : Option String :=
  if jsTruthyStr a then a else b

/-- Rendering of a nullable value inside a template literal: JavaScript
prints the string itself, and `undefined` for an absent value. -/
def jsShow : Option String → String
  | some s => s
  | none => "undefined"

/-! ## Session state store (src/state/callState.js) -/

/-- The per-call dialogue slots held in the store.  Every field is
nullable; `timezone` is never written by the voice-agent code but is read
by the booking branch, so it is kept in the record. -/
structure CallSession where
  step : Option String
  service : Option String
  date : Option String
  time : Option String
  name : Option String
  email : Option String
  phone : Option String
  timezone : Option String
deriving DecidableEq, Repr

/-- The JavaScript empty object `{}` used by `upsertCallState` when no
entry exists: every property reads as `undefined`. -/
def emptySession : CallSession :=
  { step := none, service := none, date := none, time := none,
    name := none, email := none, phone := none, timezone := none }

/-- The default session built by the agent-chat handler when
`getCallState` returns nothing (index.js line 339). -/
def defaultSession : CallSession :=
  { step := some "greeting", service := none, date := none, time := none,
    name := none, email := none, phone := none, timezone := none }

/-- One entry of the `calls` map: the session plus its last-mutation
timestamp. -/
structure CallEntry where
  state : CallSession
  updatedAt : Int
deriving DecidableEq, Repr

/-- The backing `Map` of src/state/callState.js, as a total function. -/
def CallStore : Type := String → Option CallEntry

/-- `TTL_MS = 1000 * 60 * 30` from src/state/callState.js. -/
def TTL_MS : Int := 1000 * 60 * 30

/-- `getCallState(callSid)` from src/state/callState.js, with `Date.now()`
passed in as `now`.  Returns the read result together with the store
after the read (an expired entry is deleted on the read). -/
def getCallState (calls : CallStore) (now : Int) (callSid : String) :
    Option CallSession × CallStore :=
  if callSid = "" then (none, calls)
  else
    match calls callSid with
    | none => (none, calls)
    | some v =>
      if now - v.updatedAt > TTL_MS then
        (none, fun k => if k = callSid then none else calls k)
      else
        (some v.state, calls)

/-- A patch object passed to `upsertCallState`: each field is either
absent from the object (`none`) or present with a nullable value. -/
structure SessionPatch where
  step : Option (Option String) := none
  service : Option (Option String) := none
  date : Option (Option String) := none
  time : Option (Option String) := none
  name : Option (Option String) := none
  email : Option (Option String) := none
  phone : Option (Option String) := none
  timezone : Option (Option String) := none

/-- The JavaScript object spread `{ ...existing, ...patch }`: a key
present in the patch overwrites the existing value (even with `null`),
an absent key keeps the existing value. -/
def spreadPatch (existing : CallSession) (p : SessionPatch) : CallSession :=
  { step := p.step.getD existing.step,
    service := p.service.getD existing.service,
    date := p.date.getD existing.date,
    time := p.time.getD existing.time,
    name := p.name.getD existing.name,
    email := p.email.getD existing.email,
    phone := p.phone.getD existing.phone,
    timezone := p.timezone.getD existing.timezone }

/-- `upsertCallState(callSid, patch)` from src/state/callState.js: a falsy
key is a no-op returning `undefined`; otherwise the patch is spread over
the existing state (or `{}`) and stored with a fresh `updatedAt`. -/
def upsertCallState (calls : CallStore) (now : Int) (callSid : String)
    (patch : SessionPatch) : Option CallSession × CallStore :=
  if callSid = "" then (none, calls)
  else
    let existing :=
      match calls callSid with
      | some v => v.state
      | none => emptySession
    let next := spreadPatch existing patch
    (some next, fun k => if k = callSid then some ⟨next, now⟩ else calls k)

/-- `clearCallState(callSid)` from src/state/callState.js. -/
def clearCallState (calls : CallStore) (callSid : String) : CallStore :=
  if callSid = "" then calls
  else fun k => if k = callSid then none else calls k

/-! ## NLU output and the per-turn merge (index.js lines 339-389) -/

/-- The structured output of the NLU extraction step
(src/services/nluExtract.js), as consumed by the handler. -/
structure ExtractedFields where
  intent : String
  service : Option String
  date : Option String
  time : Option String
  timezone : Option String
  name : Option String
  email : Option String
  phone : Option String
  confirmation : Option String
deriving DecidableEq, Repr

/-- The patch built at index.js lines 381-389: every slot key is present,
with `extracted.field ?? state.field` as its value. -/
def mergePatch (state : CallSession) (ex : ExtractedFields) : SessionPatch :=
  { step := some state.step,
    service := some (jsNullish ex.service state.service),
    date := some (jsNullish ex.date state.date),
    time := some (jsNullish ex.time state.time),
    name := some (jsNullish ex.name state.name),
    email := some (jsNullish ex.email state.email),
    phone := some (jsNullish ex.phone state.phone) }

/-- The session stored by the handler after a merge of `ex` into `state`:
each slot takes the extracted value when that is non-null and otherwise
the previous value; `step` is carried over and `timezone` is never in the
patch. -/
def mergedSession (state : CallSession) (ex : ExtractedFields) : CallSession :=
  { step := state.step,
    service := jsNullish ex.service state.service,
    date := jsNullish ex.date state.date,
    time := jsNullish ex.time state.time,
    name := jsNullish ex.name state.name,
    email := jsNullish ex.email state.email,
    phone := jsNullish ex.phone state.phone,
    timezone := state.timezone }

/-- The session the handler works with before the merge: the stored
session, or the fresh default when the read came back empty. -/
def stateOf (calls : CallStore) (now : Int) (callSid : String) : CallSession :=
  ((getCallState calls now callSid).1).getD defaultSession

/-- The read-then-merge step of the agent-chat handler: `getCallState`
(line 339) followed by `upsertCallState` with the merge patch
(lines 381-389). -/
def mergeTurnState (calls : CallStore) (now : Int) (callSid : String)
    (ex : ExtractedFields) : Option CallSession × CallStore :=
  let got := getCallState calls now callSid
  let state := got.1.getD defaultSession
  upsertCallState got.2 now callSid (mergePatch state ex)

/-! ## Turn counter (index.js lines 81-89) -/

/-- The `callTurnIndices` map, as a total function. -/
def TurnMap : Type := String → Option Nat

/-- `getTurnIndex(callSid)` from index.js: a falsy key yields `0` without
touching the map; otherwise the current counter (`|| 0`) is returned and
the map records its successor. -/
def getTurnIndex (m : TurnMap) (callSid : String) : Nat × TurnMap :=
  if callSid = "" then (0, m)
  else
    let current := (m callSid).getD 0
    (current, fun k => if k = callSid then some (current + 1) else m k)

/-- A sequence of `getTurnIndex` invocations, returning the list of
returned indices. -/
def runTurnIndices (m : TurnMap) : List String → List Nat
  | [] => []
  | c :: cs =>
    let r := getTurnIndex m c
    r.1 :: runTurnIndices r.2 cs

/-! ## Best-effort telemetry POST (src/utils/bestEffortPost.js) -/

/-- JavaScript `haystack.includes(needle)`: substring containment. -/
def jsIncludes (s pat : String) : Bool :=
  go s.data
where
  go : List Char → Bool
    | [] => pat.data.isEmpty
    | c :: rest => pat.data.isPrefixOf (c :: rest) || go rest

/-- Observable outcome of one `fetch` attempt inside `bestEffortPost`:
a 2xx response with a JSON body, a non-2xx response (whose body text is
read for the error message), an abort fired by the 2.5s timeout, or any
other rejection with its message. -/
inductive FetchOutcome where
  | success (body : String)
  | httpError (status : Nat) (bodyText : String)
  | abortError
  | rejected (message : String)
deriving DecidableEq, Repr

/-- Whether the attempt resolved with `response.ok`. -/
def isSuccess : FetchOutcome → Bool
  | .success _ => true
  | _ => false

/-- The `error.message` observed in the catch block: a non-2xx response
is rethrown as `HTTP <status>: <bodyText>`. -/
def errorMessage : FetchOutcome → String
  | .success _ => ""
  | .httpError status bodyText => "HTTP " ++ toString status ++ ": " ++ bodyText
  | .abortError => "The operation was aborted"
  | .rejected message => message

/-- The retry classification in bestEffortPost.js line 36:
`error.name === "AbortError" || error.message.includes("timeout") ||
error.message.includes("network")`. -/
def isRetryable : FetchOutcome → Bool
  | .success _ => false
  | .abortError => true
  | e => jsIncludes (errorMessage e) "timeout" || jsIncludes (errorMessage e) "network"

/-- `MAX_RETRIES = 1` from bestEffortPost.js. -/
def MAX_RETRIES : Nat := 1

/-- The guard `options.retryCount === undefined || options.retryCount <
MAX_RETRIES`. -/
def canRetry : Option Nat → Bool
  | none => true
  | some n => n < MAX_RETRIES

/-- `bestEffortPost` over the outcomes of successive fetch attempts
(`outcomes k` is the outcome of attempt `k`).  Returns the resolved value
(`none` models the `return null` of the failure path) together with the
number of attempts performed.  The recursive call mirrors
`bestEffortPost(url, data, { ...options, retryCount: (options.retryCount
|| 0) + 1 })`. -/
def bestEffortPostRun (outcomes : Nat → FetchOutcome) (attempt : Nat)
    (rc : Option Nat) : Option String × Nat :=
  match h : outcomes attempt with
  | .success body => (some body, attempt + 1)
  | e =>
    if hr : canRetry rc ∧ isRetryable e then
      bestEffortPostRun outcomes (attempt + 1) (some (rc.getD 0 + 1))
    else
      (none, attempt + 1)
termination_by MAX_RETRIES + 1 - rc.getD 0
decreasing_by
  rcases hr with ⟨hcr, _⟩
  cases rc with
  | none => simp [MAX_RETRIES]
  | some n =>
    simp only [canRetry, MAX_RETRIES, decide_eq_true_eq] at hcr
    simp [MAX_RETRIES]
    omega

/-- The exported entry point: `options.retryCount` starts out undefined. -/
def bestEffortPost (outcomes : Nat → FetchOutcome) : Option String × Nat :=
  bestEffortPostRun outcomes 0 none

/-! ## Audio session bridge (index.js /media-stream connection) -/

/-- The connection-specific mutable state of one /media-stream session
(index.js lines 717-721). -/
structure AudioState where
  streamSid : Option String
  latestMediaTimestamp : Int
  lastAssistantItem : Option String
  markQueue : List String
  responseStartTimestampTwilio : Option Int
deriving DecidableEq, Repr

/-- Messages the bridge sends on the OpenAI realtime socket. -/
inductive OpenAIMsg where
  | audioAppend (payload : String)
  | truncateItem (itemId : String) (contentIndex : Nat) (audioEndMs : Int)
deriving DecidableEq, Repr

/-- Messages the bridge sends on the Twilio media-stream socket. -/
inductive TwilioMsg where
  | media (streamSid : Option String) (payload : String)
  | mark (streamSid : Option String)
  | clear (streamSid : Option String)
deriving DecidableEq, Repr

/-- One outbound send of the bridge, on either leg. -/
inductive BridgeSend where
  | toOpenAI (m : OpenAIMsg)
  | toTwilio (m : TwilioMsg)
deriving DecidableEq, Repr

/-- `handleSpeechStartedEvent` (index.js lines 774-800): on barge-in, when
marks are outstanding and a response start timestamp is recorded, send a
truncate for the last assistant item (if one is recorded) at the elapsed
playback time, clear the Twilio buffer, and reset the playback state;
otherwise do nothing. -/
def handleSpeechStartedEvent (st : AudioState) : AudioState × List BridgeSend :=
  match st.responseStartTimestampTwilio with
  | none => (st, [])
  | some r =>
    if st.markQueue.length > 0 then
      let elapsedTime := st.latestMediaTimestamp - r
      let truncSends :=
        if jsTruthyStr st.lastAssistantItem then
          [BridgeSend.toOpenAI
            (OpenAIMsg.truncateItem (jsShow st.lastAssistantItem) 0 elapsedTime)]
        else []
      ({ st with
          markQueue := [], lastAssistantItem := none,
          responseStartTimestampTwilio := none },
       truncSends ++ [BridgeSend.toTwilio (TwilioMsg.clear st.streamSid)])
    else (st, [])

/-- `sendMark` (index.js lines 803-813): when a stream is bound, send a
mark frame and enqueue the token. -/
def sendMark (st : AudioState) : AudioState × List BridgeSend :=
  if jsTruthyStr st.streamSid then
    ({ st with markQueue := st.markQueue ++ ["responsePart"] },
     [BridgeSend.toTwilio (TwilioMsg.mark st.streamSid)])
  else (st, [])

/-- The `response.output_audio.delta` branch of the OpenAI message handler
(index.js lines 887-906), for an event with payload `payload` and item id
`itemId`.  The branch only runs when `response.delta` is truthy. -/
def handleAudioDelta (payload : String) (itemId : Option String)
    (st : AudioState) : AudioState × List BridgeSend :=
  if payload = "" then (st, [])
  else
    let sends0 := [BridgeSend.toTwilio (TwilioMsg.media st.streamSid payload)]
    let st1 :=
      if jsTruthyInt st.responseStartTimestampTwilio then st
      else { st with responseStartTimestampTwilio := some st.latestMediaTimestamp }
    let st2 := if jsTruthyStr itemId then { st1 with lastAssistantItem := itemId } else st1
    let m := sendMark st2
    (m.1, sends0 ++ m.2)

/-- Inbound Twilio frames handled by the connection message handler
(index.js lines 930-966). -/
inductive TwilioEvent where
  | media (timestamp : Int) (payload : String)
  | start (streamSid : String)
  | mark
  | other (name : String)
deriving DecidableEq, Repr

/-- The Twilio message handler: `media` updates the latest timestamp and
forwards audio when the model socket is open, `start` binds the stream
and resets the start/media timestamps, `mark` dequeues one token. -/
def handleTwilioEvent (openAiOpen : Bool) (ev : TwilioEvent) (st : AudioState) :
    AudioState × List BridgeSend :=
  match ev with
  | .media ts payload =>
    let st1 := { st with latestMediaTimestamp := ts }
    if openAiOpen then (st1, [BridgeSend.toOpenAI (OpenAIMsg.audioAppend payload)])
    else (st1, [])
  | .start sid =>
    ({ st with
        streamSid := some sid, responseStartTimestampTwilio := none,
        latestMediaTimestamp := 0 }, [])
  | .mark =>
    (if st.markQueue.length > 0 then { st with markQueue := st.markQueue.tail }
     else st, [])
  | .other _ => (st, [])

/-! ## The /api/agent-chat dialogue cascade (index.js lines 245-659) -/

/-- One catalog service as seen by the handler. -/
structure Service where
  id : Option String
  name : Option String
  durationMinutes : Option Int
  duration : Option Int
deriving DecidableEq, Repr

/-- The generic fallback service `{ id: "generic", name: "appointment",
duration: 30, durationMinutes: 30 }`. -/
def genericService : Service :=
  { id := some "generic", name := some "appointment",
    durationMinutes := some 30, duration := some 30 }

/-- `getServiceDuration(service)` (index.js lines 107-136):
`service.durationMinutes ?? service.duration ?? 30`, with non-positive
(or non-numeric) values replaced by 30.  Durations are modelled as
integers, so the NaN branch coincides with the invalid-value branch. -/
def getServiceDuration : Option Service → Int
  | none => 30
  | some s =>
    let duration := (jsNullish s.durationMinutes (jsNullish s.duration (some 30))).getD 30
    if duration ≤ 0 then 30 else duration

/-- JavaScript `String.prototype.toLowerCase` for the ASCII range. -/
def lowerChar (c : Char) : Char :=
  if c.toNat ≥ 65 ∧ c.toNat ≤ 90 then Char.ofNat (c.toNat + 32) else c

/-- Lower-casing of a string, character by character. -/
def lowerStr (s : String) : String := ⟨s.data.map lowerChar⟩

/-- JavaScript whitespace for `String.prototype.trim`. -/
def isWs (c : Char) : Bool := c = ' ' ∨ c = '\t' ∨ c = '\n' ∨ c = '\r'

/-- JavaScript `String.prototype.trim`: drop whitespace from both ends. -/
def trimStr (s : String) : String :=
  ⟨((s.data.dropWhile isWs).reverse.dropWhile isWs).reverse⟩

/-- `findServiceByName(services, serviceName)` (index.js lines 139-159):
first service whose truthy name matches case-insensitively after
trimming; `null` for an empty catalog or an invalid name. -/
def findServiceByName (services : List Service) (serviceName : Option String) :
    Option Service :=
  if services.isEmpty then none
  else if !(jsTruthyStr serviceName) then none
  else
    services.find? (fun s =>
      jsTruthyStr s.name &&
        (trimStr (lowerStr (jsShow s.name)) == trimStr (lowerStr (jsShow serviceName))))

/-- Observable result of `callCheckAvailability` (index.js lines 162-208):
that helper catches every exception and resolves with either a JSON
object (whose `available` truthiness and nullable `error` text are
recorded) or, when the remote body parsed to a non-object JSON value, a
non-object. -/
inductive CheckResult where
  | obj (available : Bool) (error : Option String)
  | nonObj
deriving DecidableEq, Repr

/-- Observable result of `callBookAppointment` (index.js lines 210-230):
it catches every exception, so it resolves with a JSON value: an object
with an `ok` truthiness flag and nullable `error`, or a non-object. -/
inductive BookResult where
  | obj (ok : Bool) (error : Option String)
  | nonObj
deriving DecidableEq, Repr

/-- Handler-side normalization (index.js lines 470-473): a missing or
non-object availability result becomes `{available:false, error:"Invalid
response"}`. -/
def normalizeCheck : CheckResult → Bool × Option String
  | .obj available error => (available, error)
  | .nonObj => (false, some "Invalid response")

/-- Handler-side normalization (index.js lines 521-524): a missing or
non-object booking result becomes `{ok:false, error:"Invalid response"}`. -/
def normalizeBook : BookResult → Bool × Option String
  | .obj ok error => (ok, error)
  | .nonObj => (false, some "Invalid response")

/-- One external booking-API invocation performed during a turn, recorded
in order with the (normalized) result the handler observed. -/
inductive ToolInvocation where
  | checkAvailability (date : Option String) (timezone : String)
      (durationMinutes : Int) (available : Bool) (error : Option String)
  | bookAppointment (start : String) (guestName guestEmail guestPhone : Option String)
      (ok : Bool) (error : Option String)
deriving DecidableEq, Repr

/-- The business profile fields the handler reads. -/
structure BusinessProfile where
  name : Option String
  timezone : Option String
  services : Option (List Service)
  defaultServices : Option (List Service)
deriving Repr

/-- The request body fields the handler reads: falsy strings are modelled
by `""`, and `messages` carries the content of each message. -/
structure ChatRequest where
  businessId : String
  callSid : String
  text : String
  messages : List String
deriving DecidableEq, Repr

/-- The observable outcome of one /api/agent-chat request: HTTP status,
response fields, the session store afterwards, and the booking-API
invocations performed. -/
structure ChatOutcome where
  status : Nat
  ok : Bool
  reply : Option String
  error : Option String
  state : Option CallSession
  store : CallStore
  tools : List ToolInvocation

/-- `services.slice(0, 2).map(s => s?.name).filter(Boolean)`. -/
def serviceNamesShort (services : List Service) : List String :=
  (services.take 2).filterMap (fun s =>
    match s.name with
    | some nm => if nm = "" then none else some nm
    | none => none)

/-- `serviceNames.join(" or ")`. -/
def joinOr (names : List String) : String := String.intercalate " or " names

/-- Reply of cascade branch 1 (`intent === "ask_services"`). -/
def askServicesReply (services : List Service) : String :=
  let serviceNames := serviceNamesShort services
  if serviceNames.length > 0 then
    "We offer " ++ joinOr serviceNames ++ ". Which one would you like?"
  else
    "We offer appointments. What would you like to book?"

/-- Reply of cascade branch 2 (`!next.service`). -/
def chooseServiceReply (services : List Service) : String :=
  let serviceNames := serviceNamesShort services
  if serviceNames.length > 0 then
    "Sure. Do you want " ++ joinOr serviceNames ++ "?"
  else
    "Sure. What type of appointment would you like?"

/-- The guard `!replyText || replyText.trim().length === 0` (index.js line
577): a string trims to empty exactly when every character is
whitespace. -/
def isBlankReply (s : String) : Bool := s.data.all (fun c => c.isWhitespace)

/-- The safety fallback reply (index.js line 579). -/
def fallbackReply : String :=
  "I had trouble processing that, but I can help you try again. What would you like to do?"

/-- Application of the safety fallback to the computed reply text. -/
def finalizeReply (replyText : String) : String :=
  if isBlankReply replyText then fallbackReply else replyText

/-- The fixed apology of the top-level catch (index.js line 633). -/
def errorReplyText : String :=
  "I\x27m having trouble accessing the scheduling system right now. Please try again later."

/-- The TypeError raised when the cascade reads `next.service` while
`next` is `undefined` (merge skipped for a falsy callSid). -/
def typeErrorMessage : String :=
  "Cannot read properties of undefined (reading \x27service\x27)"

/-- Cascade branch 5 (index.js lines 435-573): resolve duration and
timezone, call check_availability, and on an available slot call
book_appointment; returns the reply text, the store afterwards (cleared
on booking success) and the invocations performed. -/
def bookingBranch (services : List Service) (profileTimezone : Option String)
    (next : CallSession) (checkR : CheckResult) (bookR : BookResult)
    (calls2 : CallStore) (callSid : String) :
    String × CallStore × List ToolInvocation :=
  let serviceDuration := getServiceDuration (findServiceByName services next.service)
  let timezone := jsShow (jsOrStr next.timezone (jsOrStr profileTimezone (some "America/Toronto")))
  let cn := normalizeCheck checkR
  let checkInv := ToolInvocation.checkAvailability next.date timezone serviceDuration cn.1 cn.2
  if cn.1 then
    let bn := normalizeBook bookR
    let start := jsShow next.date ++ "T" ++ jsShow next.time
    let bookInv := ToolInvocation.bookAppointment start next.name next.email next.phone bn.1 bn.2
    if bn.1 then
      ("Perfect! I\x27ve booked " ++ jsShow (jsOrStr next.service (some "your appointment")) ++
         " on " ++ jsShow next.date ++ " at " ++ jsShow next.time ++ " for " ++
         jsShow next.name ++ ". You\x27ll receive a confirmation shortly.",
       clearCallState calls2 callSid, [checkInv, bookInv])
    else
      ("I had trouble scheduling that, but I can help you try again. Would you like to try a different time?",
       calls2, [checkInv, bookInv])
  else
    let errorMsg := if jsTruthyStr cn.2 then " (" ++ jsShow cn.2 ++ ")" else ""
    ("I\x27m sorry, that time slot isn\x27t available" ++ errorMsg ++
       ". Would you like to try a different day or time?",
     calls2, [checkInv])

/-- The /api/agent-chat handler (index.js lines 245-659), over the oracle
outcomes of its external calls.  The telemetry emissions are
fire-and-forget (their results are unused) and the turn counter does not
influence the response, so neither is threaded here. -/
def agentChat (req : ChatRequest) (profile : BusinessProfile)
    (extracted : ExtractedFields) (checkR : CheckResult) (bookR : BookResult)
    (calls : CallStore) (now : Int) : ChatOutcome :=
  if req.businessId = "" then
    { status := 400, ok := false, reply := none,
      error := some "businessId is required", state := none, store := calls,
      tools := [] }
  else
    let userText := if req.text = "" then (req.messages.getLast?).getD "" else req.text
    if userText = "" then
      { status := 400, ok := false, reply := none,
        error := some "text or messages with content is required", state := none,
        store := calls, tools := [] }
    else
      let services0 :=
        (jsNullish profile.services (jsNullish profile.defaultServices (some []))).getD []
      let services := if services0.isEmpty then [genericService] else services0
      let mt := mergeTurnState calls now req.callSid extracted
      let nextOpt := mt.1
      let calls2 := mt.2
      if extracted.intent = "ask_services" then
        { status := 200, ok := true,
          reply := some (finalizeReply (askServicesReply services)),
          error := none, state := nextOpt, store := calls2, tools := [] }
      else
        match nextOpt with
        | none =>
          { status := 500, ok := false, reply := some errorReplyText,
            error := some typeErrorMessage, state := none, store := calls2,
            tools := [] }
        | some next =>
          if !(jsTruthyStr next.service) then
            { status := 200, ok := true,
              reply := some (finalizeReply (chooseServiceReply services)),
              error := none, state := some next, store := calls2, tools := [] }
          else if !(jsTruthyStr next.date) || !(jsTruthyStr next.time) then
            { status := 200, ok := true,
              reply := some (finalizeReply "Great. What day and time works for you?"),
              error := none, state := some next, store := calls2, tools := [] }
          else if !(jsTruthyStr next.name) ||
              (!(jsTruthyStr next.email) && !(jsTruthyStr next.phone)) then
            { status := 200, ok := true,
              reply := some (finalizeReply
                "Perfect. What\x27s your name, and can I get your email or phone number?"),
              error := none, state := some next, store := calls2, tools := [] }
          else
            let bb := bookingBranch services profile.timezone next checkR bookR
              calls2 req.callSid
            { status := 200, ok := true, reply := some (finalizeReply bb.1),
              error := none, state := some next, store := bb.2.1, tools := bb.2.2 }

/-! ## Concrete fixtures used by the witness theorems -/

/-- A store holding one fresh session for call "CA1" with a known
service. -/
def c1Store : CallStore := fun k =>
  if k = "CA1" then
    some ⟨{ step := some "greeting", service := some "massage", date := none,
            time := none, name := none, email := none, phone := none,
            timezone := none }, 100⟩
  else none

/-- An extraction carrying a new date but a null service. -/
def c1Ex : ExtractedFields :=
  { intent := "book", service := none, date := some "2026-03-01", time := none,
    timezone := none, name := some "Ann", email := none, phone := none,
    confirmation := none }

/-- The barge-in scenario of the spec: one outstanding mark, response
started at 1000ms, playback at 1450ms. -/
def c2State : AudioState :=
  { streamSid := some "MZ1", latestMediaTimestamp := 1450,
    lastAssistantItem := some "item1", markQueue := ["responsePart"],
    responseStartTimestampTwilio := some 1000 }

/-- An extraction with every booking slot filled. -/
def wExBook : ExtractedFields :=
  { intent := "book", service := some "Massage", date := some "2026-01-02",
    time := some "10:00", timezone := none, name := some "Ann",
    email := some "ann@example.com", phone := none, confirmation := none }

/-- A one-service catalog. -/
def wSvc : Service :=
  { id := some "m1", name := some "massage", durationMinutes := some 60,
    duration := none }

/-- A profile carrying the catalog and a timezone. -/
def wProfile : BusinessProfile :=
  { name := some "Spa", timezone := some "America/Toronto",
    services := some [wSvc], defaultServices := none }

/-- A valid turn request for call "CA1". -/
def wReq : ChatRequest :=
  { businessId := "spa", callSid := "CA1", text := "book it", messages := [] }

/-- A store with one entry for "CA1" last mutated at time 0. -/
def c6Store : CallStore := fun k =>
  if k = "CA1" then some ⟨defaultSession, 0⟩ else none

/-- A bridge state whose response-start timestamp is absent. -/
def c7State : AudioState :=
  { streamSid := some "MZ1", latestMediaTimestamp := 300,
    lastAssistantItem := none, markQueue := [],
    responseStartTimestampTwilio := none }

/-- Fetch outcomes: the first attempt fails with a network-class error,
the second attempt succeeds. -/
def w8Outcomes : Nat → FetchOutcome := fun n =>
  if n = 0 then FetchOutcome.rejected "fetch failed: network down"
  else FetchOutcome.success "\x7b\x7d"

/-- Whether a recorded invocation is a `check_availability` call whose
(normalized) result reported an available slot. -/
def toolReportsAvailable : ToolInvocation → Bool
  | ToolInvocation.checkAvailability _ _ _ available _ => available
  | _ => false

/-! ## Helper lemmas -/

lemma mergeTurnState_spec (calls : CallStore) (now : Int) (callSid : String)
    (ex : ExtractedFields) (h : callSid ≠ "") :
    mergeTurnState calls now callSid ex =
      (some (mergedSession (stateOf calls now callSid) ex),
       fun k => if k = callSid then
           some ⟨mergedSession (stateOf calls now callSid) ex, now⟩
         else (getCallState calls now callSid).2 k) := by
  unfold mergeTurnState upsertCallState stateOf getCallState
  simp only [h, if_false]
  cases hc : calls callSid with
  | none =>
      simp [hc, mergedSession, mergePatch, spreadPatch, emptySession,
        defaultSession]
  | some v =>
      by_cases hexp : now - v.updatedAt > TTL_MS
      · simp [hc, hexp, mergedSession, mergePatch, spreadPatch, emptySession,
          defaultSession]
      · simp [hc, hexp, mergedSession, mergePatch, spreadPatch]

lemma runTurnIndices_get (pre : List String) (m : TurnMap) (c : String)
    (post : List String) (hc : c ≠ "") :
    (runTurnIndices m (pre ++ c :: post))[pre.length]? =
      some ((m c).getD 0 + pre.count c) := by
  induction pre generalizing m with
  | nil =>
      simp [runTurnIndices, getTurnIndex, hc]
  | cons a pre ih =>
      simp only [List.cons_append, runTurnIndices, List.length_cons,
        List.getElem?_cons_succ, List.count_cons]
      rw [List.append_eq, ih]
      by_cases ha : a = ""
      · have hne : ¬("" = c) := fun h => hc h.symm
        simp [getTurnIndex, ha, hne]
      · by_cases hca : c = a
        · subst hca
          simp [getTurnIndex, ha]
          omega
        · have hne : ¬(a = c) := fun h => hca h.symm
          simp [getTurnIndex, ha, hne, hca]

lemma mergeTurnState_falsy (calls : CallStore) (now : Int) (ex : ExtractedFields) :
    mergeTurnState calls now "" ex = (none, calls) := by
  simp [mergeTurnState, getCallState, upsertCallState]

lemma mergeTurnState_fst_some {calls : CallStore} {now : Int} {callSid : String}
    {ex : ExtractedFields} {next : CallSession}
    (h : (mergeTurnState calls now callSid ex).1 = some next) : callSid ≠ "" := by
  intro hs
  subst hs
  rw [mergeTurnState_falsy] at h
  exact Option.noConfusion h

lemma bestEffortPostRun_stop (outcomes : Nat → FetchOutcome) (attempt : Nat) :
    bestEffortPostRun outcomes attempt (some 1) =
      match outcomes attempt with
      | FetchOutcome.success body => (some body, attempt + 1)
      | _ => (none, attempt + 1) := by
  rw [bestEffortPostRun]
  cases h : outcomes attempt <;> simp [canRetry, MAX_RETRIES]

lemma isBlankReply_append (s t : String) :
    isBlankReply (s ++ t) = (isBlankReply s && isBlankReply t) := by
  simp [isBlankReply, String.data_append, List.all_append]

lemma finalizeReply_of_nonblank {s : String} (h : isBlankReply s = false) :
    finalizeReply s = s := by
  simp [finalizeReply, h]

lemma finalizeReply_wrap (a m b : String) (ha : isBlankReply a = false) :
    finalizeReply (a ++ m ++ b) = a ++ m ++ b := by
  apply finalizeReply_of_nonblank
  simp [isBlankReply_append, ha]

/-! ## Claim theorems -/

/-- C1: for every call identifier and any store contents, one turn merge
stores and returns a session in which each slot equals the newly
extracted value when that value is non-null and otherwise the previously
stored value (`mergedSession` is exactly that field-wise description);
entries of other call identifiers are untouched.  Since this holds for
every starting store, it holds after every sequence of merges. -/
theorem merge_last_known_good (calls : CallStore) (now : Int) (callSid : String)
    (ex : ExtractedFields) (h : callSid ≠ "") :
    (mergeTurnState calls now callSid ex).1 =
      some (mergedSession (stateOf calls now callSid) ex) ∧
    (mergeTurnState calls now callSid ex).2 callSid =
      some ⟨mergedSession (stateOf calls now callSid) ex, now⟩ ∧
    ∀ k, k ≠ callSid →
      (mergeTurnState calls now callSid ex).2 k =
        (getCallState calls now callSid).2 k := by
  rw [mergeTurnState_spec calls now callSid ex h]
  refine ⟨rfl, by simp, fun k hk => by simp [hk]⟩

theorem merge_last_known_good_witness :
    ("CA1" : String) ≠ "" ∧
    (mergeTurnState c1Store 200 "CA1" c1Ex).1 =
      some (mergedSession (stateOf c1Store 200 "CA1") c1Ex) ∧
    (mergeTurnState c1Store 200 "CA1" c1Ex).2 "CA1" =
      some ⟨mergedSession (stateOf c1Store 200 "CA1") c1Ex, 200⟩ ∧
    (mergeTurnState c1Store 200 "CA1" c1Ex).2 "CB9" =
      (getCallState c1Store 200 "CA1").2 "CB9" ∧
    (mergedSession (stateOf c1Store 200 "CA1") c1Ex).service = some "massage" ∧
    (mergedSession (stateOf c1Store 200 "CA1") c1Ex).date = some "2026-03-01" :=
  ⟨by decide,
   (merge_last_known_good c1Store 200 "CA1" c1Ex (by decide)).1,
   (merge_last_known_good c1Store 200 "CA1" c1Ex (by decide)).2.1,
   (merge_last_known_good c1Store 200 "CA1" c1Ex (by decide)).2.2 "CB9" (by decide),
   by decide, by decide⟩

/-- C6: for a call identifier with an entry in the backing map, a read
after the 30-minute TTL (measured from the `updatedAt` of the entry) has
elapsed returns absent and deletes the entry on that read; a read within
the TTL returns the stored session and leaves the store unchanged. -/
theorem getCallState_ttl (calls : CallStore) (now : Int) (callSid : String)
    (st : CallSession) (up : Int) (h : callSid ≠ "")
    (he : calls callSid = some ⟨st, up⟩) :
    (now - up > TTL_MS →
      getCallState calls now callSid =
        (none, fun k => if k = callSid then none else calls k) ∧
      (getCallState calls now callSid).2 callSid = none) ∧
    (now - up ≤ TTL_MS → getCallState calls now callSid = (some st, calls)) := by
  unfold getCallState
  simp only [h, if_false, he]
  constructor
  · intro hgt
    simp [hgt]
  · intro hle
    simp [not_lt.mpr hle]

theorem getCallState_ttl_witness :
    ("CA1" : String) ≠ "" ∧ c6Store "CA1" = some ⟨defaultSession, 0⟩ ∧
    ((1800001 : Int) - 0 > TTL_MS) ∧
    getCallState c6Store 1800001 "CA1" =
      (none, fun k => if k = "CA1" then none else c6Store k) ∧
    (getCallState c6Store 1800001 "CA1").2 "CA1" = none :=
  ⟨by decide, rfl, by decide,
   ((getCallState_ttl c6Store 1800001 "CA1" defaultSession 0 (by decide) rfl).1
     (by decide)).1,
   ((getCallState_ttl c6Store 1800001 "CA1" defaultSession 0 (by decide) rfl).1
     (by decide)).2⟩

/-- C9: starting from an empty counter map, the invocation of
`getTurnIndex` at any position of any invocation sequence returns exactly
the number of earlier invocations with the same (truthy) call identifier:
the first invocation for an identifier returns 0, each later one returns
one more than the previous, and invocations for other identifiers do not
affect it. -/
theorem turnIndex_counts_invocations (pre : List String) (c : String)
    (post : List String) (hc : c ≠ "") :
    (runTurnIndices (fun _ => none) (pre ++ c :: post))[pre.length]? =
      some (pre.count c) := by
  rw [runTurnIndices_get pre (fun _ => none) c post hc]
  simp

theorem turnIndex_counts_invocations_witness :
    ("CA1" : String) ≠ "" ∧
    (runTurnIndices (fun _ => none) (["CA1", "CA2"] ++ "CA1" :: []))[2]? = some 1 :=
  ⟨by decide, by
    have h := turnIndex_counts_invocations ["CA1", "CA2"] "CA1" [] (by decide)
    simpa using h⟩

/-- C2: on a speech-started event with a non-empty mark queue, a recorded
response-start timestamp, a recorded last assistant item and a bound
stream, the bridge sends exactly one truncate for that item at
`latestMediaTimestamp - responseStart` milliseconds and exactly one clear
for the bound stream, then empties the mark queue and clears the last
assistant item and the response-start timestamp; with an empty mark queue
the event sends nothing and changes no state. -/
theorem speech_started_barge_in (st : AudioState) :
    (∀ r itemId sid, st.markQueue ≠ [] →
      st.responseStartTimestampTwilio = some r →
      st.lastAssistantItem = some itemId → itemId ≠ "" →
      st.streamSid = some sid →
      handleSpeechStartedEvent st =
        ({ st with
            markQueue := [], lastAssistantItem := none,
            responseStartTimestampTwilio := none },
         [BridgeSend.toOpenAI
            (OpenAIMsg.truncateItem itemId 0 (st.latestMediaTimestamp - r)),
          BridgeSend.toTwilio (TwilioMsg.clear (some sid))])) ∧
    (st.markQueue = [] → handleSpeechStartedEvent st = (st, [])) := by
  constructor
  · intro r itemId sid hq hr hi hitem hsid
    unfold handleSpeechStartedEvent
    rw [hr]
    have hlen : st.markQueue.length > 0 := List.length_pos.mpr hq
    simp [hlen, hi, hitem, hsid, jsTruthyStr, jsShow]
  · intro hq
    unfold handleSpeechStartedEvent
    cases hr : st.responseStartTimestampTwilio with
    | none => rfl
    | some r => simp [hq]

theorem speech_started_barge_in_witness :
    c2State.markQueue ≠ [] ∧
    c2State.responseStartTimestampTwilio = some 1000 ∧
    c2State.lastAssistantItem = some "item1" ∧
    c2State.streamSid = some "MZ1" ∧
    handleSpeechStartedEvent c2State =
      ({ streamSid := some "MZ1", latestMediaTimestamp := 1450,
         lastAssistantItem := none, markQueue := [],
         responseStartTimestampTwilio := none },
       [BridgeSend.toOpenAI (OpenAIMsg.truncateItem "item1" 0 450),
        BridgeSend.toTwilio (TwilioMsg.clear (some "MZ1"))]) :=
  ⟨by decide, rfl, rfl, rfl, by
    have h := (speech_started_barge_in c2State).1 1000 "item1" "MZ1"
      (by decide) rfl rfl (by decide) rfl
    simpa [c2State] using h⟩

/-- C7 counterexample: the claim says an already-set
`responseStartTimestampMs` is left unchanged by an output-audio-delta
event, but the code tests `!responseStartTimestampTwilio`, which treats a
recorded value of 0 as absent: with `responseStart = some 0` (reachable
when the first delta of a response arrives before any media frame) and
playback at 100ms, the delta overwrites it. -/
theorem audio_delta_counterexample :
    (handleAudioDelta "p" none
      { streamSid := some "MZ1", latestMediaTimestamp := 100,
        lastAssistantItem := none, markQueue := [],
        responseStartTimestampTwilio := some 0 }).1.responseStartTimestampTwilio
      ≠ some 0 := by decide

/-- C7 (amended): on an output-audio-delta event with a non-empty
payload, when `responseStartTimestampTwilio` is falsy (absent or zero) it
is set to the current `latestMediaTimestamp`; when it holds a non-zero
value the event leaves it unchanged. -/
theorem audio_delta_response_start (payload : String) (itemId : Option String)
    (st : AudioState) (hp : payload ≠ "") :
    (jsTruthyInt st.responseStartTimestampTwilio = false →
      (handleAudioDelta payload itemId st).1.responseStartTimestampTwilio =
        some st.latestMediaTimestamp) ∧
    (jsTruthyInt st.responseStartTimestampTwilio = true →
      (handleAudioDelta payload itemId st).1.responseStartTimestampTwilio =
        st.responseStartTimestampTwilio) := by
  unfold handleAudioDelta sendMark
  constructor <;> intro h <;>
    simp [hp, h] <;>
    by_cases hi : jsTruthyStr itemId = true <;>
      by_cases hs : jsTruthyStr st.streamSid = true <;>
        simp [hi, hs]

theorem audio_delta_response_start_witness :
    ("p" : String) ≠ "" ∧
    jsTruthyInt c7State.responseStartTimestampTwilio = false ∧
    (handleAudioDelta "p" (some "item1") c7State).1.responseStartTimestampTwilio =
      some 300 :=
  ⟨by decide, by decide, by
    have h := (audio_delta_response_start "p" (some "item1") c7State
      (by decide)).1 (by decide)
    simpa [c7State] using h⟩

lemma bestEffortPostRun_start (outcomes : Nat → FetchOutcome) :
    bestEffortPostRun outcomes 0 none =
      match outcomes 0 with
      | FetchOutcome.success body => (some body, 1)
      | e => if isRetryable e then bestEffortPostRun outcomes 1 (some 1)
             else (none, 1) := by
  rw [bestEffortPostRun]
  cases h : outcomes 0 <;> simp [canRetry, MAX_RETRIES]

/-- C8 counterexample: the claim says a non-2xx HTTP response is never
retried (a single attempt), but the retry test looks for the substrings
"timeout" / "network" in `error.message`, and a non-2xx response is
rethrown with its body text in the message: a 504 whose body reads
"Gateway timeout" is classified as retryable, so two attempts are made
instead of one. -/
theorem bestEffortPost_counterexample :
    bestEffortPost (fun _ => FetchOutcome.httpError 504 "Gateway timeout") =
      (none, 2) ∧ (2 : Nat) ≠ 1 := by
  constructor
  · have h1 : isRetryable (FetchOutcome.httpError 504 "Gateway timeout") = true := by
      decide
    unfold bestEffortPost
    rw [bestEffortPostRun]
    simp only [h1, canRetry, and_true, if_pos]
    rw [bestEffortPostRun]
    simp [canRetry, MAX_RETRIES]
  · decide

/-- C8 (amended): `bestEffortPost` resolves for every outcome sequence
(never throwing for serializable payloads), makes at most two attempts,
returns the parsed body on a first-attempt success, performs no retry and
returns null when the first failure is not classified retryable, and when
the first failure is classified retryable (abort, or an error message
containing "timeout" or "network" — which includes a non-2xx response
whose composed message contains those substrings) retries exactly once,
returning the body of the second attempt, or null. -/
theorem bestEffortPost_retry_policy (outcomes : Nat → FetchOutcome) :
    (bestEffortPost outcomes).2 ≤ 2 ∧
    (∀ b, outcomes 0 = FetchOutcome.success b →
      bestEffortPost outcomes = (some b, 1)) ∧
    (isSuccess (outcomes 0) = false → isRetryable (outcomes 0) = false →
      bestEffortPost outcomes = (none, 1)) ∧
    (isSuccess (outcomes 0) = false → isRetryable (outcomes 0) = true →
      (∀ b, outcomes 1 = FetchOutcome.success b →
        bestEffortPost outcomes = (some b, 2)) ∧
      (isSuccess (outcomes 1) = false → bestEffortPost outcomes = (none, 2))) := by
  have h1 := bestEffortPostRun_stop outcomes 1
  unfold bestEffortPost
  rw [bestEffortPostRun_start outcomes]
  cases ho : outcomes 0 with
  | success b => simp [isSuccess]
  | _ =>
    first
    | (by_cases hr : isRetryable (outcomes 0) = true
       · rw [ho] at hr
         simp only [hr, if_true, h1, isSuccess, ho]
         cases ho1 : outcomes 1 <;> simp [isSuccess]
       · rw [ho] at hr
         simp [hr, isSuccess])

theorem bestEffortPost_retry_policy_witness :
    isSuccess (w8Outcomes 0) = false ∧ isRetryable (w8Outcomes 0) = true ∧
    w8Outcomes 1 = FetchOutcome.success "\x7b\x7d" ∧
    bestEffortPost w8Outcomes = (some "\x7b\x7d", 2) :=
  ⟨by decide, by decide, by decide,
   ((bestEffortPost_retry_policy w8Outcomes).2.2.2 (by decide) (by decide)).1
     "\x7b\x7d" (by decide)⟩

lemma agentChat_tools_shape (req : ChatRequest) (profile : BusinessProfile)
    (extracted : ExtractedFields) (checkR : CheckResult) (bookR : BookResult)
    (calls : CallStore) (now : Int)
    (hne : (agentChat req profile extracted checkR bookR calls now).tools ≠ []) :
    ∃ next services,
      (mergeTurnState calls now req.callSid extracted).1 = some next ∧
      (agentChat req profile extracted checkR bookR calls now).reply =
        some (finalizeReply (bookingBranch services profile.timezone next checkR
          bookR (mergeTurnState calls now req.callSid extracted).2 req.callSid).1) ∧
      (agentChat req profile extracted checkR bookR calls now).store =
        (bookingBranch services profile.timezone next checkR bookR
          (mergeTurnState calls now req.callSid extracted).2 req.callSid).2.1 ∧
      (agentChat req profile extracted checkR bookR calls now).tools =
        (bookingBranch services profile.timezone next checkR bookR
          (mergeTurnState calls now req.callSid extracted).2 req.callSid).2.2 := by
  unfold agentChat at hne ⊢
  by_cases hb : req.businessId = ""
  · simp [hb] at hne
  · by_cases ht : (if req.text = "" then (req.messages.getLast?).getD "" else req.text) = ""
    · simp [hb, ht] at hne
    · by_cases hi : extracted.intent = "ask_services"
      · simp [hb, ht, hi] at hne
      · simp only [hb, ht, hi, if_false, ite_false, if_neg, not_false_iff] at hne ⊢
        cases hmt : (mergeTurnState calls now req.callSid extracted).1 with
        | none =>
          rw [hmt] at hne
          simp at hne
        | some next =>
          rw [hmt] at hne
          by_cases h1 : jsTruthyStr next.service = false
          · simp [h1] at hne
          · by_cases h2 : jsTruthyStr next.date = false ∨ jsTruthyStr next.time = false
            · simp [h1, h2] at hne
            · by_cases h3 : jsTruthyStr next.name = false ∨
                (jsTruthyStr next.email = false ∧ jsTruthyStr next.phone = false)
              · simp [h1, h2, h3] at hne
              · refine ⟨next,
                  (if ((jsNullish profile.services
                        (jsNullish profile.defaultServices (some []))).getD []).isEmpty = true
                    then [genericService]
                    else (jsNullish profile.services
                      (jsNullish profile.defaultServices (some []))).getD []),
                  rfl, ?_, ?_, ?_⟩ <;> simp [h1, h2, h3]

/-- C10: a request that passes validation (truthy businessId, non-empty
user text) but carries no callSid, with an intent other than
ask_services, never yields a normal dialogue reply: the merge stores and
returns nothing for the missing key, the first slot check of the cascade
faults on the undefined merge result, and the handler responds HTTP 500
with `ok:false` and the fixed apology, leaving the store untouched and
invoking no tool. -/
theorem missing_callSid_faults (businessId text : String) (messages : List String)
    (profile : BusinessProfile) (extracted : ExtractedFields)
    (checkR : CheckResult) (bookR : BookResult) (calls : CallStore) (now : Int)
    (hb : businessId ≠ "") (ht : text ≠ "")
    (hi : extracted.intent ≠ "ask_services") :
    (upsertCallState calls now ""
      (mergePatch (stateOf calls now "") extracted) = (none, calls)) ∧
    agentChat ⟨businessId, "", text, messages⟩ profile extracted checkR bookR
        calls now =
      { status := 500, ok := false, reply := some errorReplyText,
        error := some typeErrorMessage, state := none, store := calls,
        tools := [] } := by
  constructor
  · simp [upsertCallState]
  · unfold agentChat
    simp only [hb, ht, hi, mergeTurnState_falsy, if_false, ite_false,
      if_neg, not_false_iff]

theorem missing_callSid_faults_witness :
    ("spa" : String) ≠ "" ∧ ("book it" : String) ≠ "" ∧
    ("book" : String) ≠ "ask_services" ∧
    agentChat ⟨"spa", "", "book it", []⟩ wProfile wExBook
        (CheckResult.obj true none) (BookResult.obj true none)
        (fun _ => none) 5 =
      { status := 500, ok := false, reply := some errorReplyText,
        error := some typeErrorMessage, state := none,
        store := (fun _ => none), tools := [] } :=
  ⟨by decide, by decide, by decide,
   (missing_callSid_faults "spa" "book it" [] wProfile wExBook
     (CheckResult.obj true none) (BookResult.obj true none)
     (fun _ => none) 5 (by decide) (by decide) (by decide)).2⟩

/-- C3: in every turn, whenever a book_appointment invocation occurs, the
turn performed exactly two external invocations, the first being a
check_availability whose result reported available, and the
book_appointment immediately after it; in particular, when the
availability result is missing, malformed, or reports unavailable,
book_appointment is never invoked. -/
theorem book_only_after_available (req : ChatRequest) (profile : BusinessProfile)
    (extracted : ExtractedFields) (checkR : CheckResult) (bookR : BookResult)
    (calls : CallStore) (now : Int)
    (s : String) (gn ge gp : Option String) (ok : Bool) (e : Option String)
    (hmem : ToolInvocation.bookAppointment s gn ge gp ok e ∈
      (agentChat req profile extracted checkR bookR calls now).tools) :
    (agentChat req profile extracted checkR bookR calls now).tools.length = 2 ∧
    ((agentChat req profile extracted checkR bookR calls now).tools[0]?).map
      toolReportsAvailable = some true ∧
    (agentChat req profile extracted checkR bookR calls now).tools[1]? =
      some (ToolInvocation.bookAppointment s gn ge gp ok e) := by
  have hne : (agentChat req profile extracted checkR bookR calls now).tools ≠ [] := by
    intro h
    rw [h] at hmem
    exact List.not_mem_nil _ hmem
  obtain ⟨next, services, hmt, hreply, hstore, htools⟩ :=
    agentChat_tools_shape req profile extracted checkR bookR calls now hne
  rw [htools] at hmem ⊢
  unfold bookingBranch at hmem ⊢
  by_cases hav : (normalizeCheck checkR).1 = true
  · by_cases hok : (normalizeBook bookR).1 = true <;>
      simp [hav, hok, toolReportsAvailable] at hmem ⊢ <;> simp [hmem]
  · simp [hav] at hmem

theorem book_only_after_available_witness :
    ToolInvocation.bookAppointment "2026-01-02T10:00" (some "Ann")
        (some "ann@example.com") none true none ∈
      (agentChat wReq wProfile wExBook (CheckResult.obj true none)
        (BookResult.obj true none) (fun _ => none) 5).tools ∧
    (agentChat wReq wProfile wExBook (CheckResult.obj true none)
        (BookResult.obj true none) (fun _ => none) 5).tools.length = 2 ∧
    ((agentChat wReq wProfile wExBook (CheckResult.obj true none)
        (BookResult.obj true none) (fun _ => none) 5).tools[0]?).map
      toolReportsAvailable = some true ∧
    (agentChat wReq wProfile wExBook (CheckResult.obj true none)
        (BookResult.obj true none) (fun _ => none) 5).tools[1]? =
      some (ToolInvocation.bookAppointment "2026-01-02T10:00" (some "Ann")
        (some "ann@example.com") none true none) :=
  ⟨by decide,
   book_only_after_available wReq wProfile wExBook (CheckResult.obj true none)
     (BookResult.obj true none) (fun _ => none) 5 "2026-01-02T10:00"
     (some "Ann") (some "ann@example.com") none true none (by decide)⟩

/-- C4: if a book_appointment invocation in a turn reported `ok: true`,
the session entry for the call is cleared before the reply is returned,
so the very next `getCallState` read for that call returns absent (at any
time). -/
theorem booking_success_clears_session (req : ChatRequest)
    (profile : BusinessProfile) (extracted : ExtractedFields)
    (checkR : CheckResult) (bookR : BookResult) (calls : CallStore) (now : Int)
    (s : String) (gn ge gp : Option String) (e : Option String)
    (hmem : ToolInvocation.bookAppointment s gn ge gp true e ∈
      (agentChat req profile extracted checkR bookR calls now).tools) :
    (agentChat req profile extracted checkR bookR calls now).store req.callSid =
      none ∧
    ∀ t : Int,
      (getCallState
        (agentChat req profile extracted checkR bookR calls now).store t
        req.callSid).1 = none := by
  have hne : (agentChat req profile extracted checkR bookR calls now).tools ≠ [] := by
    intro h
    rw [h] at hmem
    exact List.not_mem_nil _ hmem
  obtain ⟨next, services, hmt, hreply, hstore, htools⟩ :=
    agentChat_tools_shape req profile extracted checkR bookR calls now hne
  have hcs : req.callSid ≠ "" := mergeTurnState_fst_some hmt
  rw [htools] at hmem
  rw [hstore]
  unfold bookingBranch at hmem ⊢
  by_cases hav : (normalizeCheck checkR).1 = true
  · by_cases hok : (normalizeBook bookR).1 = true
    · simp only [hav, hok, if_true, ite_true]
      have hnone : clearCallState
          (mergeTurnState calls now req.callSid extracted).2 req.callSid
          req.callSid = none := by
        simp [clearCallState, hcs]
      refine ⟨hnone, fun t => ?_⟩
      unfold getCallState
      simp [hcs, hnone]
    · simp [hav, hok] at hmem
  · simp [hav] at hmem

theorem booking_success_clears_session_witness :
    ToolInvocation.bookAppointment "2026-01-02T10:00" (some "Ann")
        (some "ann@example.com") none true none ∈
      (agentChat wReq wProfile wExBook (CheckResult.obj true none)
        (BookResult.obj true none) (fun _ => none) 5).tools ∧
    (agentChat wReq wProfile wExBook (CheckResult.obj true none)
        (BookResult.obj true none) (fun _ => none) 5).store "CA1" = none ∧
    (getCallState
      (agentChat wReq wProfile wExBook (CheckResult.obj true none)
        (BookResult.obj true none) (fun _ => none) 5).store 9999 "CA1").1 =
      none :=
  ⟨by decide,
   (booking_success_clears_session wReq wProfile wExBook
     (CheckResult.obj true none) (BookResult.obj true none) (fun _ => none) 5
     "2026-01-02T10:00" (some "Ann") (some "ann@example.com") none none
     (by decide)).1,
   (booking_success_clears_session wReq wProfile wExBook
     (CheckResult.obj true none) (BookResult.obj true none) (fun _ => none) 5
     "2026-01-02T10:00" (some "Ann") (some "ann@example.com") none none
     (by decide)).2 9999⟩

/-- C5: when the availability check of a turn reports unavailable (or an
error), or when it succeeds but book_appointment does not report
`ok: true`, the stored session for the call after the turn is exactly the
merged slots from before the attempt (stored at the timestamp of this turn,
not cleared), and the reply is the corresponding apology inviting another
attempt. -/
theorem booking_failure_retains_slots (req : ChatRequest)
    (profile : BusinessProfile) (extracted : ExtractedFields)
    (checkR : CheckResult) (bookR : BookResult) (calls : CallStore) (now : Int) :
    (∀ d tz dur ce,
      ToolInvocation.checkAvailability d tz dur false ce ∈
        (agentChat req profile extracted checkR bookR calls now).tools →
      (agentChat req profile extracted checkR bookR calls now).store req.callSid =
        some ⟨mergedSession (stateOf calls now req.callSid) extracted, now⟩ ∧
      (agentChat req profile extracted checkR bookR calls now).reply =
        some ("I\x27m sorry, that time slot isn\x27t available" ++
          (if jsTruthyStr ce then " (" ++ jsShow ce ++ ")" else "") ++
          ". Would you like to try a different day or time?")) ∧
    (∀ s gn ge gp e,
      ToolInvocation.bookAppointment s gn ge gp false e ∈
        (agentChat req profile extracted checkR bookR calls now).tools →
      (agentChat req profile extracted checkR bookR calls now).store req.callSid =
        some ⟨mergedSession (stateOf calls now req.callSid) extracted, now⟩ ∧
      (agentChat req profile extracted checkR bookR calls now).reply =
        some "I had trouble scheduling that, but I can help you try again. Would you like to try a different time?") := by
  constructor
  · intro d tz dur ce hmem
    have hne : (agentChat req profile extracted checkR bookR calls now).tools ≠ [] := by
      intro h
      rw [h] at hmem
      exact List.not_mem_nil _ hmem
    obtain ⟨next, services, hmt, hreply, hstore, htools⟩ :=
      agentChat_tools_shape req profile extracted checkR bookR calls now hne
    have hcs : req.callSid ≠ "" := mergeTurnState_fst_some hmt
    have hst : (mergeTurnState calls now req.callSid extracted).2 req.callSid =
        some ⟨mergedSession (stateOf calls now req.callSid) extracted, now⟩ := by
      rw [mergeTurnState_spec calls now req.callSid extracted hcs]
      simp
    rw [htools] at hmem
    rw [hstore, hreply]
    unfold bookingBranch at hmem ⊢
    by_cases hav : (normalizeCheck checkR).1 = true
    · by_cases hok : (normalizeBook bookR).1 = true <;>
        simp [hav, hok] at hmem
    · simp only [hav, Bool.not_eq_true] at hmem ⊢
      simp only [hav, if_false, Bool.false_eq_true, ite_false] at hmem ⊢
      simp at hmem
      obtain ⟨hd, htz, hdur, hce⟩ := hmem
      subst hce
      refine ⟨hst, ?_⟩
      rw [finalizeReply_wrap _ _ _ (by decide)]
  · intro s gn ge gp e hmem
    have hne : (agentChat req profile extracted checkR bookR calls now).tools ≠ [] := by
      intro h
      rw [h] at hmem
      exact List.not_mem_nil _ hmem
    obtain ⟨next, services, hmt, hreply, hstore, htools⟩ :=
      agentChat_tools_shape req profile extracted checkR bookR calls now hne
    have hcs : req.callSid ≠ "" := mergeTurnState_fst_some hmt
    have hst : (mergeTurnState calls now req.callSid extracted).2 req.callSid =
        some ⟨mergedSession (stateOf calls now req.callSid) extracted, now⟩ := by
      rw [mergeTurnState_spec calls now req.callSid extracted hcs]
      simp
    rw [htools] at hmem
    rw [hstore, hreply]
    unfold bookingBranch at hmem ⊢
    by_cases hav : (normalizeCheck checkR).1 = true
    · by_cases hok : (normalizeBook bookR).1 = true
      · simp [hav, hok] at hmem
      · simp only [hav, if_true, ite_true] at hmem ⊢
        simp only [Bool.not_eq_true] at hok
        simp only [hok, Bool.false_eq_true, if_false, ite_false] at hmem ⊢
        refine ⟨hst, ?_⟩
        rw [finalizeReply_of_nonblank (by decide)]
    · simp [hav] at hmem

theorem booking_failure_retains_slots_witness :
    ToolInvocation.checkAvailability (some "2026-01-02") "America/Toronto" 60
        false (some "closed") ∈
      (agentChat wReq wProfile wExBook (CheckResult.obj false (some "closed"))
        (BookResult.obj true none) (fun _ => none) 5).tools ∧
    ((agentChat wReq wProfile wExBook (CheckResult.obj false (some "closed"))
        (BookResult.obj true none) (fun _ => none) 5).store "CA1" =
      some ⟨mergedSession (stateOf (fun _ => none) 5 "CA1") wExBook, 5⟩ ∧
     (agentChat wReq wProfile wExBook (CheckResult.obj false (some "closed"))
        (BookResult.obj true none) (fun _ => none) 5).reply =
      some ("I\x27m sorry, that time slot isn\x27t available" ++
        (if jsTruthyStr (some "closed")
          then " (" ++ jsShow (some "closed") ++ ")" else "") ++
        ". Would you like to try a different day or time?")) ∧
    ("I\x27m sorry, that time slot isn\x27t available" ++
        (if jsTruthyStr (some "closed")
          then " (" ++ jsShow (some "closed") ++ ")" else "") ++
        ". Would you like to try a different day or time?") =
      "I\x27m sorry, that time slot isn\x27t available (closed). Would you like to try a different day or time?" :=
  ⟨by decide,
   (booking_failure_retains_slots wReq wProfile wExBook
     (CheckResult.obj false (some "closed")) (BookResult.obj true none)
     (fun _ => none) 5).1 (some "2026-01-02") "America/Toronto" 60
     (some "closed") (by decide),
   by decide⟩
